import Mathlib

/-!
Verification of the uparjan-fullstack backend (FastAPI + SQLite personal
finance tracker) against its design-level specification.

The backend is embedded shallowly: the relational store becomes an explicit
`DB` value threaded through the request handlers, which become pure Lean
functions returning `Except HTTPException` results.  Python `datetime.date`
values are encoded as natural numbers in `yyyymmdd` form (so that numeric
order agrees with calendar order), `datetime.datetime` values as a pair of a
calendar day and a time-of-day component, and Python float amounts/prices are
carried opaquely as integers (no claim exercises floating-point arithmetic).
External library primitives that the backend merely delegates to (passlib
PBKDF2-SHA256 hashing, python-jose HMAC signing, the yfinance quote provider)
are modelled from the spec, as documented on each definition.
-/

namespace Uparjan

/-- Error raised by FastAPI handlers: a status code plus a detail message,
mirroring `HTTPException(status_code=..., detail=...)` in `backend/main.py`. -/
structure HTTPException where
  status_code : Nat
  detail : String
deriving DecidableEq, Repr

/-! ## Credential service (`backend/auth.py`) -/

/-- Numeric seed of a string, used by the modelled key-derivation and signing
primitives to mix string inputs into arithmetic. -/
def strSeed (s : String) : Nat :=
  s.data.foldl (fun acc c => acc * 1114112 + c.toNat + 1) 0

/-- Modelled from the spec: the salted, iterated key-derivation scheme
(passlib `pbkdf2_sha256`, an external library configured by
`pwd_context = CryptContext(schemes=["pbkdf2_sha256"])` in `backend/auth.py`).
The derived key is an iterated mix of the password and the salt; the concrete
mixing function stands in for HMAC-SHA256, which is outside the repository. -/
@[irreducible] def pbkdf2_sha256 (password : String) (salt : Nat) : Nat :=
  (List.range 29000).foldl
    (fun acc i => (acc * 1000003 + strSeed password + salt + i) % 2 ^ 64)
    (strSeed password + salt)

/-- Modelled from the spec: a passlib modular-crypt hash string
`$pbkdf2-sha256$rounds$salt$checksum`.  The salt drawn at hashing time and the
derived checksum are both embedded in the stored hash. -/
structure PHash where
  salt : Nat
  digest : Nat
deriving DecidableEq, Repr

/-- Hash password using PBKDF2-SHA256 (`get_password_hash` in
`backend/auth.py`).  passlib draws a fresh random salt on every call; the salt
is made an explicit argument here, standing for that per-call randomness. -/
def get_password_hash (password : String) (salt : Nat) : PHash :=
  { salt := salt, digest := pbkdf2_sha256 password salt }

/-- Verify password using PBKDF2 (`verify_password` in `backend/auth.py`):
the salt is read back from the stored hash and the derivation recomputed. -/
def verify_password (plain_password : String) (hashed_password : PHash) : Bool :=
  pbkdf2_sha256 plain_password hashed_password.salt == hashed_password.digest

/-- Process-wide JWT signing secret (`SECRET_KEY` in `backend/auth.py`). -/
def SECRET_KEY : String := "super-secret-key-change-me"

/-- Token lifetime constant (`ACCESS_TOKEN_EXPIRE_MINUTES` in `backend/auth.py`). -/
def ACCESS_TOKEN_EXPIRE_MINUTES : Nat := 30

/-- Value stored under a key of a JWT payload: the backend puts the subject
email (a string) and the expiry (a timestamp) into the claims mapping. -/
inductive Claim where
  | str (s : String)
  | num (n : Nat)
deriving DecidableEq, Repr

/-- Claims mapping of a token, as an association list preserving Python dict
insertion order. -/
abbrev Claims := List (String × Claim)

/-- Numeric seed of a claim value, for the modelled signing primitive. -/
def claimSeed : Claim → Nat
  | .str s => 2 * strSeed s
  | .num n => 2 * n + 1

/-- Modelled from the spec: the HS256 signature computed by
`jwt.encode(..., SECRET_KEY, algorithm="HS256")` from the python-jose library
(external).  The concrete mixing function stands in for HMAC-SHA256; what
matters is that the signature is a function of the secret and the payload. -/
def hmac_sign (secret : String) (payload : Claims) : Nat :=
  payload.foldl
    (fun acc kv => (acc * 1000003 + strSeed kv.1 + claimSeed kv.2) % 2 ^ 64)
    (strSeed secret)

/-- Modelled from the spec: a signed token string as produced by `jwt.encode`
(header/payload/signature); the payload and the signature over it are kept
structurally. -/
structure JWT where
  payload : Claims
  signature : Nat
deriving DecidableEq, Repr

/-- Modelled from the spec: `jwt.encode(to_encode, SECRET_KEY, algorithm=...)`
from the python-jose library (external): signs the payload with the secret. -/
def jwt_encode (payload : Claims) (secret : String) : JWT :=
  { payload := payload, signature := hmac_sign secret payload }

/-- Modelled from the spec: JWT decoding given the signing secret — the
payload is revealed iff the signature verifies under the secret. -/
def jwt_decode (tok : JWT) (secret : String) : Option Claims :=
  if hmac_sign secret tok.payload == tok.signature then some tok.payload else none

/-- Python dict update `m[k] = v` on an insertion-ordered association list:
overwrite in place when the key exists, append otherwise. -/
def dictUpdate (m : Claims) (k : String) (v : Claim) : Claims :=
  if m.any (fun kv => kv.1 == k) then
    m.map (fun kv => if kv.1 == k then (k, v) else kv)
  else m ++ [(k, v)]

/-- Create access token for login sessions (`create_access_token` in
`backend/auth.py`): copies the claims, sets `exp` to now plus the given delta
(default `ACCESS_TOKEN_EXPIRE_MINUTES` minutes), and signs with `SECRET_KEY`.
Time is in seconds; `now` stands for `datetime.utcnow()`. -/
def create_access_token (data : Claims) (now : Nat) (expires_delta : Option Nat) : JWT :=
  let expire := now + (match expires_delta with
    | some d => d
    | none => ACCESS_TOKEN_EXPIRE_MINUTES * 60)
  let to_encode := dictUpdate data "exp" (Claim.num expire)
  jwt_encode to_encode SECRET_KEY

/-! ## Data model (`backend/models.py`, `backend/schemas.py`) -/

/-- Python `datetime.datetime` as sent by the client for a transaction date:
a calendar day (encoded `yyyymmdd`) plus a time-of-day component (seconds). -/
structure PyDateTime where
  days : Nat
  seconds : Nat
deriving DecidableEq, Repr

/-- SQLAlchemy bind coercion of a value into a `Date` column under the SQLite
dialect: the storage format uses only the year, month and day fields, so a
datetime is reduced to its calendar day. -/
def sqlite_date_bind (v : PyDateTime) : Nat := v.days

/-- Persisted `Transaction` record (`backend/models.py`): integer primary key,
free-form type ("Income"/"Expense") and category strings, amount, and a
calendar date (a `Date` column, no time component). -/
structure Transaction where
  id : Nat
  type : String
  category : String
  amount : Int
  date : Nat
deriving DecidableEq, Repr

/-- Persisted `User` record (`backend/models.py`): integer primary key, unique
email, password hash, and a server-assigned creation timestamp. -/
structure User where
  id : Nat
  email : String
  hashed_password : PHash
  created_at : Nat
deriving DecidableEq, Repr

/-- Request schema `TransactionCreate` (`backend/schemas.py`): the client
sends the date as an ISO datetime, hence the time-of-day component. -/
structure TransactionCreate where
  type : String
  category : String
  amount : Int
  date : PyDateTime
deriving DecidableEq, Repr

/-- Request schema `UserCreate` (`backend/schemas.py`). -/
structure UserCreate where
  email : String
  password : String
deriving DecidableEq, Repr

/-- Request body of `/auth/login` (`LoginRequest` in `backend/main.py`). -/
structure LoginRequest where
  email : String
  password : String
deriving DecidableEq, Repr

/-- Response schema `Token` (`backend/schemas.py`). -/
structure Token where
  access_token : JWT
  token_type : String
deriving DecidableEq, Repr

/-- Response model `StockPriceResponse` (`backend/main.py`). -/
structure StockPriceResponse where
  symbol : String
  price : Int
deriving DecidableEq, Repr

/-- State of the relational store: the two tables plus the next auto-assigned
primary key for each (SQLite assigns fresh increasing row ids on insert). -/
structure DB where
  users : List User
  transactions : List Transaction
  nextUserId : Nat
  nextTxId : Nat
deriving DecidableEq, Repr

/-! ## Persistence layer session scope (`get_db` in `backend/main.py`) -/

/-- Session bookkeeping of the persistence layer: the id the next
`SessionLocal()` call hands out, and the log of `close()` calls made. -/
structure Store where
  nextSession : Nat
  closes : List Nat
deriving DecidableEq, Repr

/-- Python `try: yield db / finally: db.close()`: the handler body runs to its
outcome (normal return or exception) and the finalizer runs afterwards on
either path. -/
def tryFinallyClose {α : Type} (body : Except HTTPException α) (sid : Nat)
    (st : Store) : Except HTTPException α × Store :=
  match body with
  | .ok a => (.ok a, { st with closes := st.closes ++ [sid] })
  | .error e => (.error e, { st with closes := st.closes ++ [sid] })

/-- Request-scoped session dependency (`get_db` in `backend/main.py`): acquire
a session from `SessionLocal()`, yield it to the handler, and close it in a
`finally` block whatever the handler's outcome. -/
def get_db_run {α : Type} (handler : Nat → Except HTTPException α) (st : Store) :
    Except HTTPException α × Store :=
  let sid := st.nextSession
  let st1 := { st with nextSession := st.nextSession + 1 }
  tryFinallyClose (handler sid) sid st1

/-! ## Auth endpoints (`backend/main.py`) -/

/-- Handler of `POST /auth/register` (`register_user` in `backend/main.py`):
reject with 400 "Email already registered" when the email exists, otherwise
hash the password and insert a new user.  `salt` stands for the fresh salt
passlib draws inside `get_password_hash`, `now` for the server timestamp the
store assigns to `created_at`.  The store state is returned alongside the
response so that the effect (or absence of effect) of the call is explicit. -/
def register_user (user_in : UserCreate) (salt : Nat) (now : Nat) (db : DB) :
    Except HTTPException User × DB :=
  match db.users.find? (fun u => u.email == user_in.email) with
  | some _ =>
      (.error { status_code := 400, detail := "Email already registered" }, db)
  | none =>
      let hashed_pw := get_password_hash user_in.password salt
      let db_user : User :=
        { id := db.nextUserId, email := user_in.email,
          hashed_password := hashed_pw, created_at := now }
      (.ok db_user,
       { db with users := db.users ++ [db_user], nextUserId := db.nextUserId + 1 })

/-- Handler of `POST /auth/login` (`login` in `backend/main.py`): look the
user up by email; if there is no such user or the password does not verify,
fail with 400 "Incorrect email or password"; otherwise issue a bearer token
with the email as subject claim.  `now` stands for `datetime.utcnow()`. -/
def login (payload : LoginRequest) (now : Nat) (db : DB) : Except HTTPException Token :=
  match db.users.find? (fun u => u.email == payload.email) with
  | none => .error { status_code := 400, detail := "Incorrect email or password" }
  | some user =>
      if verify_password payload.password user.hashed_password then
        .ok { access_token := create_access_token [("sub", Claim.str user.email)] now none,
              token_type := "bearer" }
      else
        .error { status_code := 400, detail := "Incorrect email or password" }

/-! ## Transactions API (`backend/main.py`) -/

/-- Handler of `POST /transactions` (`create_transaction` in
`backend/main.py`): build a `Transaction` row from the payload (the `Date`
column keeps only the calendar day of the datetime), insert it with a fresh
id, commit, and return the refreshed record. -/
def create_transaction (tx : TransactionCreate) (db : DB) : Transaction × DB :=
  let db_tx : Transaction :=
    { id := db.nextTxId, type := tx.type, category := tx.category,
      amount := tx.amount, date := sqlite_date_bind tx.date }
  (db_tx,
   { db with transactions := db.transactions ++ [db_tx], nextTxId := db.nextTxId + 1 })

/-- Ordering used by `GET /transactions`: `ORDER BY date DESC`, i.e. the later
(numerically larger) encoded date comes first. -/
def dateDesc (a b : Transaction) : Prop := b.date ≤ a.date

instance : DecidableRel dateDesc := fun a b => Nat.decLe b.date a.date

instance : IsTotal Transaction dateDesc :=
  ⟨fun a b => Nat.le_total b.date a.date⟩

instance : IsTrans Transaction dateDesc :=
  ⟨fun _ _ _ h1 h2 => Nat.le_trans h2 h1⟩

/-- Handler of `GET /transactions` (`list_transactions` in `backend/main.py`):
all stored rows ordered by date descending.  The SQL engine's ordering is
realised here by an insertion sort under `dateDesc`; rows with equal dates
come in whatever order the engine picks, consistent with the contract. -/
def list_transactions (db : DB) : List Transaction :=
  List.insertionSort dateDesc db.transactions

/-- Handler of `DELETE /transactions/{tx_id}` (`delete_transaction` in
`backend/main.py`): 404 "Transaction not found" when no row has the id,
otherwise delete that row and commit.  The store state is returned alongside
the response. -/
def delete_transaction (tx_id : Nat) (db : DB) : Except HTTPException Unit × DB :=
  match db.transactions.find? (fun t => t.id == tx_id) with
  | none => (.error { status_code := 404, detail := "Transaction not found" }, db)
  | some _ =>
      (.ok (),
       { db with transactions := db.transactions.eraseP (fun t => t.id == tx_id) })

/-! ## Stock price lookup (`backend/main.py`) -/

/-- Handler of `GET /stock-price` (`get_stock_price` in `backend/main.py`).
`provider` stands for the external yfinance lookup
`yf.Ticker(symbol).info.get("currentPrice")`: `none` when the provider has no
current price.  On success the response carries the uppercased symbol. -/
def get_stock_price (provider : String → Option Int) (symbol : String) :
    Except HTTPException StockPriceResponse :=
  match provider symbol with
  | none =>
      .error { status_code := 404,
               detail := "Could not find price for symbol " ++ symbol }
  | some current_price =>
      .ok { symbol := symbol.toUpper, price := current_price }

/-- Fresh store as produced by `models.Base.metadata.create_all`: both tables
empty, row ids starting at 1 (SQLite's first assigned rowid). -/
def emptyDB : DB :=
  { users := [], transactions := [], nextUserId := 1, nextTxId := 1 }

/-! ## Claims -/

/-- C1: for every stored set of transactions, `list_transactions` returns all
stored records (a permutation of the table) ordered by date descending; in
particular, for transactions dated 2024-01-01, 2024-03-01, 2024-02-01
inserted in that order, `list` returns dates [2024-03-01, 2024-02-01,
2024-01-01].  Ties on equal dates come in whatever order the sort picks. -/
theorem claim_C1_list_ordered_date_desc (db : DB) :
    List.Sorted dateDesc (list_transactions db) ∧
    (list_transactions db).Perm db.transactions ∧
    (list_transactions
        ((create_transaction ⟨"Expense", "Rent", 70, ⟨20240201, 0⟩⟩
          ((create_transaction ⟨"Expense", "Food", 50, ⟨20240301, 0⟩⟩
            ((create_transaction ⟨"Income", "Salary", 100, ⟨20240101, 0⟩⟩
              emptyDB).2)).2)).2)).map
        Transaction.date = [20240301, 20240201, 20240101] := by
  refine ⟨List.sorted_insertionSort dateDesc db.transactions,
          List.perm_insertionSort dateDesc db.transactions, by decide⟩

/-- C2: registering an email that is already stored fails with the conflict
error (400, "Email already registered") and leaves the user table unchanged;
registering an unused email hashes the password and appends exactly one new
user record carrying that hash. -/
theorem claim_C2_register_conflict_or_insert (user_in : UserCreate) (salt now : Nat)
    (db : DB) :
    ((∃ u, db.users.find? (fun v => v.email == user_in.email) = some u) →
      register_user user_in salt now db =
        (.error { status_code := 400, detail := "Email already registered" }, db)) ∧
    (db.users.find? (fun v => v.email == user_in.email) = none →
      register_user user_in salt now db =
        (.ok ⟨db.nextUserId, user_in.email, get_password_hash user_in.password salt, now⟩,
         { db with
           users := db.users ++
             [⟨db.nextUserId, user_in.email, get_password_hash user_in.password salt, now⟩],
           nextUserId := db.nextUserId + 1 })) := by
  constructor
  · rintro ⟨u, hu⟩
    simp [register_user, hu]
  · intro h
    simp [register_user, h]

/-- Witness for C2 at concrete stores: the duplicate email "a@b.com" is
rejected with the store unchanged, and registration into the empty store
inserts the hashed user. -/
theorem claim_C2_register_witness :
    register_user ⟨"a@b.com", "pw"⟩ 5 7
        ⟨[⟨1, "a@b.com", ⟨0, 0⟩, 0⟩], [], 2, 1⟩ =
      (.error { status_code := 400, detail := "Email already registered" },
        ⟨[⟨1, "a@b.com", ⟨0, 0⟩, 0⟩], [], 2, 1⟩) ∧
    register_user ⟨"a@b.com", "pw"⟩ 5 7 emptyDB =
      (.ok ⟨1, "a@b.com", get_password_hash "pw" 5, 7⟩,
        ⟨[⟨1, "a@b.com", get_password_hash "pw" 5, 7⟩], [], 2, 1⟩) :=
  ⟨(claim_C2_register_conflict_or_insert _ 5 7 _).1
      ⟨⟨1, "a@b.com", ⟨0, 0⟩, 0⟩, by decide⟩,
   (claim_C2_register_conflict_or_insert _ 5 7 _).2 (by decide)⟩

/-- C3: a login whose email matches a stored user but whose password fails
verification, and a login whose email matches no stored user, return the very
same error value (status 400, detail "Incorrect email or password"), so the
caller cannot tell which field was wrong. -/
theorem claim_C3_login_failures_indistinguishable (e1 p1 e2 p2 : String) (now : Nat)
    (db : DB) (u : User)
    (h1 : db.users.find? (fun v => v.email == e1) = some u)
    (h2 : verify_password p1 u.hashed_password = false)
    (h3 : db.users.find? (fun v => v.email == e2) = none) :
    login { email := e1, password := p1 } now db =
      .error { status_code := 400, detail := "Incorrect email or password" } ∧
    login { email := e2, password := p2 } now db =
      .error { status_code := 400, detail := "Incorrect email or password" } := by
  constructor
  · simp [login, h1, h2]
  · simp [login, h3]

/-- Verification fails whenever the stored digest differs from the derived
key for the stored salt. -/
theorem verify_password_ne (p : String) (s d : Nat) (h : pbkdf2_sha256 p s ≠ d) :
    verify_password p ⟨s, d⟩ = false := by
  unfold verify_password
  exact beq_eq_false_iff_ne.mpr h

/-- Witness for C3: a store holding one user whose stored digest does not
match the password "pw"; logging in as that user with "pw" and logging in
with the unknown email "x@y.com" yield the identical error. -/
theorem claim_C3_login_witness :
    login ⟨"a@b.com", "pw"⟩ 0
        ⟨[⟨1, "a@b.com", ⟨0, pbkdf2_sha256 "pw" 0 + 1⟩, 0⟩], [], 2, 1⟩ =
      .error { status_code := 400, detail := "Incorrect email or password" } ∧
    login ⟨"x@y.com", "pw"⟩ 0
        ⟨[⟨1, "a@b.com", ⟨0, pbkdf2_sha256 "pw" 0 + 1⟩, 0⟩], [], 2, 1⟩ =
      .error { status_code := 400, detail := "Incorrect email or password" } :=
  claim_C3_login_failures_indistinguishable "a@b.com" "pw" "x@y.com" "pw" 0 _
    ⟨1, "a@b.com", ⟨0, pbkdf2_sha256 "pw" 0 + 1⟩, 0⟩
    (by rfl)
    (verify_password_ne "pw" 0 (pbkdf2_sha256 "pw" 0 + 1) (by omega))
    (by rfl)

/-- C4: deleting an id that matches no stored transaction fails with the 404
"Transaction not found" error and returns the store unchanged. -/
theorem claim_C4_delete_missing_is_404 (tx_id : Nat) (db : DB)
    (h : ∀ t ∈ db.transactions, t.id ≠ tx_id) :
    delete_transaction tx_id db =
      (.error { status_code := 404, detail := "Transaction not found" }, db) := by
  have hf : db.transactions.find? (fun t => t.id == tx_id) = none := by
    rw [List.find?_eq_none]
    intro t ht
    simpa using h t ht
  simp [delete_transaction, hf]

/-- Witness for C4: deleting id 2 from a store whose single transaction has
id 1 fails with 404 and leaves the store as it was. -/
theorem claim_C4_delete_witness :
    delete_transaction 2
        ⟨[], [⟨1, "Expense", "Food", 250, 20250110⟩], 1, 2⟩ =
      (.error { status_code := 404, detail := "Transaction not found" },
        ⟨[], [⟨1, "Expense", "Food", 250, 20250110⟩], 1, 2⟩) :=
  claim_C4_delete_missing_is_404 2 _ (by decide)

/-- C5: when the freshly assigned id does not collide with any stored row
(the auto-increment invariant of the store), the record returned by `create`
appears in a subsequent `list`; deleting that id then succeeds and a further
`list` no longer includes the record. -/
theorem claim_C5_create_list_delete_roundtrip (tx : TransactionCreate) (db : DB)
    (hfresh : ∀ t ∈ db.transactions, t.id ≠ db.nextTxId) :
    (create_transaction tx db).1 ∈ list_transactions (create_transaction tx db).2 ∧
    (delete_transaction (create_transaction tx db).1.id (create_transaction tx db).2).1 =
      .ok () ∧
    (create_transaction tx db).1 ∉
      list_transactions
        (delete_transaction (create_transaction tx db).1.id
          (create_transaction tx db).2).2 := by
  have hnone : ∀ b ∈ db.transactions,
      ¬(b.id == (create_transaction tx db).1.id) = true := by
    intro b hb
    simp only [beq_iff_eq]
    exact hfresh b hb
  have hfind : (create_transaction tx db).2.transactions.find?
      (fun t => t.id == (create_transaction tx db).1.id) =
      some (create_transaction tx db).1 := by
    show (db.transactions ++ [(create_transaction tx db).1]).find? _ = _
    rw [List.find?_append, List.find?_eq_none.mpr hnone]
    simp [List.find?]
  refine ⟨?_, ?_, ?_⟩
  · unfold list_transactions
    rw [List.mem_insertionSort]
    exact List.mem_append_right _ (List.mem_singleton_self _)
  · simp [delete_transaction, hfind]
  · have herase : (delete_transaction (create_transaction tx db).1.id
        (create_transaction tx db).2).2.transactions = db.transactions := by
      simp only [delete_transaction, hfind]
      show (db.transactions ++ [(create_transaction tx db).1]).eraseP _ = _
      rw [List.eraseP_append_right _ hnone, List.eraseP_cons_of_pos (by simp)]
      simp
    intro hmem
    unfold list_transactions at hmem
    rw [List.mem_insertionSort, herase] at hmem
    exact hfresh _ hmem rfl

/-- Witness for C5 on the empty store: the created transaction (id 1) is
listed, its deletion succeeds, and it is absent from the list afterwards. -/
theorem claim_C5_witness :
    (create_transaction ⟨"Expense", "Food", 250, ⟨20250110, 0⟩⟩ emptyDB).1 ∈
      list_transactions (create_transaction ⟨"Expense", "Food", 250, ⟨20250110, 0⟩⟩ emptyDB).2 ∧
    (delete_transaction (create_transaction ⟨"Expense", "Food", 250, ⟨20250110, 0⟩⟩ emptyDB).1.id
      (create_transaction ⟨"Expense", "Food", 250, ⟨20250110, 0⟩⟩ emptyDB).2).1 = .ok () ∧
    (create_transaction ⟨"Expense", "Food", 250, ⟨20250110, 0⟩⟩ emptyDB).1 ∉
      list_transactions
        (delete_transaction
          (create_transaction ⟨"Expense", "Food", 250, ⟨20250110, 0⟩⟩ emptyDB).1.id
          (create_transaction ⟨"Expense", "Food", 250, ⟨20250110, 0⟩⟩ emptyDB).2).2 :=
  claim_C5_create_list_delete_roundtrip ⟨"Expense", "Food", 250, ⟨20250110, 0⟩⟩ emptyDB
    (by simp [emptyDB])

/-- C6: hashing the same password with two distinct salts (the fresh
randomness of two separate calls) yields distinct stored hashes, yet
verification of the password succeeds against the hash of every call. -/
theorem claim_C6_salted_hash_verifies (p : String) (s1 s2 : Nat) (h : s1 ≠ s2) :
    get_password_hash p s1 ≠ get_password_hash p s2 ∧
    ∀ s : Nat, verify_password p (get_password_hash p s) = true := by
  constructor
  · intro hc
    exact h (congrArg PHash.salt hc)
  · intro s
    simp [verify_password, get_password_hash]

/-- Witness for C6 at password "pw" and the distinct salts 0 and 1. -/
theorem claim_C6_witness :
    get_password_hash "pw" 0 ≠ get_password_hash "pw" 1 ∧
    verify_password "pw" (get_password_hash "pw" 0) = true :=
  ⟨(claim_C6_salted_hash_verifies "pw" 0 1 (by decide)).1,
   (claim_C6_salted_hash_verifies "pw" 0 1 (by decide)).2 0⟩

/-- C7: with no explicit ttl, `create_access_token` embeds the given claims
plus an `exp` claim 30 minutes (1800 seconds) after issuance, signed with the
process-wide secret, so decoding under that secret reveals exactly the claims
and the expiry; in particular a token for subject "a@b.com" decodes to that
subject and an expiry 30 minutes after issuance. -/
theorem claim_C7_token_default_expiry (data : Claims) (now : Nat)
    (h : data.any (fun kv => kv.1 == "exp") = false) :
    jwt_decode (create_access_token data now none) SECRET_KEY =
      some (data ++ [("exp", Claim.num (now + 1800))]) ∧
    jwt_decode (create_access_token [("sub", Claim.str "a@b.com")] now none) SECRET_KEY =
      some [("sub", Claim.str "a@b.com"), ("exp", Claim.num (now + 1800))] := by
  constructor
  · simp [jwt_decode, create_access_token, jwt_encode, dictUpdate, h,
      ACCESS_TOKEN_EXPIRE_MINUTES]
  · simp [jwt_decode, create_access_token, jwt_encode, dictUpdate,
      ACCESS_TOKEN_EXPIRE_MINUTES]

/-- Witness for C7 at issuance time 1000 with subject claim "x@y.com". -/
theorem claim_C7_witness :
    jwt_decode (create_access_token [("sub", Claim.str "x@y.com")] 1000 none) SECRET_KEY =
      some ([("sub", Claim.str "x@y.com")] ++ [("exp", Claim.num (1000 + 1800))]) ∧
    jwt_decode (create_access_token [("sub", Claim.str "a@b.com")] 1000 none) SECRET_KEY =
      some [("sub", Claim.str "a@b.com"), ("exp", Claim.num (1000 + 1800))] :=
  claim_C7_token_default_expiry [("sub", Claim.str "x@y.com")] 1000 (by decide)

/-- C8: whatever the handler does with the request-scoped session — return a
value or raise — `get_db` closes that session exactly once (one new `close`
entry for it in the log), and the handler's outcome is passed through. -/
theorem claim_C8_session_released_once {α : Type} (handler : Nat → Except HTTPException α)
    (st : Store) :
    ((get_db_run handler st).2.closes.count st.nextSession =
      st.closes.count st.nextSession + 1) ∧
    (get_db_run handler st).1 = handler st.nextSession := by
  unfold get_db_run tryFinallyClose
  cases h : handler st.nextSession with
  | ok a => simp [h, List.count_append]
  | error e => simp [h, List.count_append]

/-- C9: a create payload whose date carries a time-of-day component is
accepted, but only the calendar day is persisted: the stored record's date is
the day with the time discarded (creating with time `s` equals creating with
time 0), and that record shows up in a subsequent list. -/
theorem claim_C9_time_component_discarded (ty cat : String) (amt : Int) (d s : Nat)
    (db : DB) :
    (create_transaction ⟨ty, cat, amt, ⟨d, s⟩⟩ db).1.date = d ∧
    create_transaction ⟨ty, cat, amt, ⟨d, s⟩⟩ db =
      create_transaction ⟨ty, cat, amt, ⟨d, 0⟩⟩ db ∧
    (create_transaction ⟨ty, cat, amt, ⟨d, s⟩⟩ db).1 ∈
      list_transactions (create_transaction ⟨ty, cat, amt, ⟨d, s⟩⟩ db).2 := by
  refine ⟨rfl, rfl, ?_⟩
  unfold list_transactions
  rw [List.mem_insertionSort]
  exact List.mem_append_right _ (List.mem_singleton_self _)

/-- C10: whenever the provider has a current price for the queried symbol,
the stock-price handler responds with the uppercased symbol together with
that price — the query parameter is not echoed back verbatim. -/
theorem claim_C10_symbol_uppercased (provider : String → Option Int) (symbol : String)
    (p : Int) (h : provider symbol = some p) :
    get_stock_price provider symbol = .ok { symbol := symbol.toUpper, price := p } := by
  simp [get_stock_price, h]

/-- Witness for C10: querying "reliance.ns" against a provider that prices it
at 2857 returns symbol "RELIANCE.NS", which differs from the query parameter. -/
theorem claim_C10_witness :
    get_stock_price (fun s => if s == "reliance.ns" then some 2857 else none)
        "reliance.ns" =
      .ok { symbol := "RELIANCE.NS", price := 2857 } ∧
    ("RELIANCE.NS" : String) ≠ "reliance.ns" := by
  have hup : ("reliance.ns".toUpper) = "RELIANCE.NS" := by
    show ("reliance.ns".map Char.toUpper) = "RELIANCE.NS"
    rw [String.map_eq]
    decide
  refine ⟨?_, by decide⟩
  have H := claim_C10_symbol_uppercased
    (fun s => if s == "reliance.ns" then some 2857 else none) "reliance.ns" 2857 (by decide)
  rw [H, hup]

end Uparjan
